import Mathlib

/-!
Verification of the StealthLynk client connection supervisor.

This file gives a shallow embedding of the main-process connection logic
(`connectVPN`, `disconnectVPN`, `handleConnectionFailure`, `waitForProxy`,
the xray process close handler) and of the renderer-side reentrancy guards
(`connect`, `disconnect`), and proves the specified properties about them.

External effects (process spawn, TCP probes, system proxy commands, latency
pings) are abstracted into an `Env` of oracles; each operation returns the
updated supervisor state, an operation result, and the trace of side effects
it performed.
-/

namespace StealthLynk

abbrev ServerId := Nat

/-- A server profile as held in `serversData.servers` (only the fields the
supervisor logic reads). -/
structure Server where
  id : ServerId
  name : String
deriving DecidableEq

/-- Oracles for the effects external to the supervisor: whether the xray
binary is found, whether the k-th TCP readiness attempt for a given server
is accepted, the IP observed by `testConnection`, the latency probe results,
the pid handed out by `spawn`, the clock, and an injected unexpected error
inside the failover body. -/
structure Env where
  binaryFound : Bool
  accepts : ServerId → Nat → Bool
  verifyIp : ServerId → Option String
  pings : ServerId → Option Nat
  pid : Nat
  now : Nat
  crash : Bool

/-- Observable side effects performed by the supervisor operations. -/
inductive Ev where
  | spawnProcess (pid : Nat)
  | killProcess
  | enableProxy
  | disableProxy
  | clearRecord
  | stopMonitor
  | startMonitor
  | setActive (id : ServerId)
  | notifyFailover (success : Bool)
deriving DecidableEq

/-- The `{ success, message }` objects the operations return over IPC. -/
structure OpResult where
  success : Bool
  message : String
deriving DecidableEq

/-- The main-process global variables that make up the supervisor state. -/
structure MainState where
  isConnected : Bool
  xrayProcess : Option Nat
  connectionStartTime : Option Nat
  lastConnectedIP : Option String
  sessionFailedServers : List ServerId
  isAutoFailoverInProgress : Bool
  autoReconnectEnabled : Bool
  monitoring : Bool
  systemProxyEnabled : Bool
  servers : List Server
  activeServer : Option ServerId
deriving DecidableEq

/-- `getActiveServer`: looks the active id up in `serversData.servers`. -/
def getActiveServer (s : MainState) : Option Server :=
  match s.activeServer with
  | none => none
  | some id => s.servers.find? (fun sv => sv.id == id)

/-- The retry loop inside `waitForProxy`: reject once the elapsed time
exceeds the timeout, otherwise attempt a TCP connection and on failure retry
after 200ms.  `accepts k` tells whether the k-th connection attempt is
accepted; each failed attempt advances the clock by the 200ms retry delay. -/
def tryConnect (timeout : Nat) (accepts : Nat → Bool) (elapsed attempt : Nat) :
    Except String Nat :=
  if h : timeout < elapsed then
    Except.error ("Proxy connection timed out after " ++ toString timeout ++ "ms")
  else if accepts attempt then
    Except.ok attempt
  else
    tryConnect timeout accepts (elapsed + 200) (attempt + 1)
termination_by timeout + 1 - elapsed
decreasing_by simp_wf; omega

/-- `waitForProxy(port, host, timeout = 10000)`: start the active-retry loop
at time zero. The result is the index of the accepted attempt. -/
def waitForProxy (timeout : Nat) (accepts : Nat → Bool) : Except String Nat :=
  tryConnect timeout accepts 0 0

/-- `disconnectVPN`: early-return success when not connected; otherwise kill
the xray process if there is a handle, disable the system proxy, clear the
connection record, and stop the network monitor — in that source order. -/
def disconnectVPN (s : MainState) : MainState × OpResult × List Ev :=
  if s.isConnected then
    let killStep :=
      match s.xrayProcess with
      | some _ => ({ s with xrayProcess := none }, [Ev.killProcess])
      | none => (s, ([] : List Ev))
    let s1 := killStep.1
    let s2 := { s1 with systemProxyEnabled := false }
    let s3 := { s2 with isConnected := false, connectionStartTime := none }
    let s4 := { s3 with monitoring := false }
    (s4, { success := true, message := "Disconnected successfully" },
      killStep.2 ++ [Ev.disableProxy, Ev.clearRecord, Ev.stopMonitor])
  else
    (s, { success := true, message := "Not connected" }, [])

/-- `connectVPN(isEmergencyReconnect = false)`: guard on `isConnected`,
require an active server, stop any lingering monitor, spawn the xray
process, wait for the SOCKS port with `waitForProxy`, apply the system
proxy, verify via `testConnection`; any failure is caught and handed to
`disconnectVPN(true)` for cleanup before returning a single failure result.
On success: record the connection, reset the session failed list on manual
connects only, and start the monitor when auto-reconnect is enabled. -/
def connectVPN (isEmergencyReconnect : Bool) (env : Env) (s : MainState) :
    MainState × OpResult × List Ev :=
  if s.isConnected then
    (s, { success := false, message := "Already connected" }, [])
  else
    match getActiveServer s with
    | none => (s, { success := false, message := "No active server selected" }, [])
    | some srv =>
      let s0 := { s with monitoring := false }
      if env.binaryFound then
        let s1 := { s0 with xrayProcess := some env.pid }
        match waitForProxy 10000 (env.accepts srv.id) with
        | Except.error msg =>
          let d := disconnectVPN s1
          (d.1,
            { success := false,
              message := "Failed to connect: Failed to establish proxy connection: " ++ msg },
            Ev.stopMonitor :: Ev.spawnProcess env.pid :: d.2.2)
        | Except.ok _ =>
          let s2 := { s1 with systemProxyEnabled := true }
          match env.verifyIp srv.id with
          | none =>
            let d := disconnectVPN s2
            (d.1,
              { success := false,
                message := "Failed to connect: Could not verify connection. IP detection failed after starting proxy." },
              Ev.stopMonitor :: Ev.spawnProcess env.pid :: Ev.enableProxy :: d.2.2)
          | some ip =>
            let s3 := { s2 with
              isConnected := true,
              connectionStartTime := some env.now,
              lastConnectedIP := some ip }
            let s4 :=
              if isEmergencyReconnect then s3
              else { s3 with sessionFailedServers := [] }
            if s4.autoReconnectEnabled then
              ({ s4 with monitoring := true },
                { success := true, message := "Connected successfully" },
                [Ev.stopMonitor, Ev.spawnProcess env.pid, Ev.enableProxy, Ev.startMonitor])
            else
              (s4, { success := true, message := "Connected successfully" },
                [Ev.stopMonitor, Ev.spawnProcess env.pid, Ev.enableProxy])
      else
        let d := disconnectVPN s0
        (d.1, { success := false, message := "Failed to connect: Xray binary not found." },
          Ev.stopMonitor :: d.2.2)

/-- The handler installed on the xray process close event: if the supervisor
still believes it is connected, run a silent disconnect; otherwise nothing. -/
def onProcessClose (s : MainState) : MainState × List Ev :=
  if s.isConnected then
    let d := disconnectVPN s
    (d.1, d.2.2)
  else
    (s, [])

/-- Ascending-latency order on probed candidates. -/
def pingLE (a b : Server × Nat) : Prop := a.2 ≤ b.2

instance : DecidableRel pingLE := fun a b => inferInstanceAs (Decidable (a.2 ≤ b.2))

instance : IsTotal (Server × Nat) pingLE := ⟨fun a b => Nat.le_total a.2 b.2⟩

instance : IsTrans (Server × Nat) pingLE := ⟨fun _ _ _ h1 h2 => Nat.le_trans h1 h2⟩

/-- Modelled from the spec: the latency-probe half of
`networkMonitor.getRankedServers` — the module `networkMonitor.js` is
required by the main process but is not among the sources.  Every candidate
is probed independently; an unreachable candidate (no ping) contributes
nothing, a reachable one its latency.  The reachable candidates are then
sorted ascending by latency. -/
def rankedWithPings (pings : ServerId → Option Nat) (servers : List Server) :
    List (Server × Nat) :=
  List.insertionSort pingLE
    (servers.filterMap (fun sv => (pings sv.id).map (fun p => (sv, p))))

/-- Modelled from the spec: `networkMonitor.getRankedServers` — unreachable
candidates are excluded entirely and the rest are ranked ascending by
latency. -/
def getRankedServers (pings : ServerId → Option Nat) (servers : List Server) :
    List Server :=
  (rankedWithPings pings servers).map Prod.fst

/-- The candidate loop of `handleConnectionFailure`: set each ranked server
active, attempt a failover-flagged connect; on success notify and stop, on
failure add the candidate to the session failed list, disconnect, continue. -/
def attemptServers (env : Env) : List Server → MainState → MainState × List Ev × Bool
  | [], s => (s, [], false)
  | srv :: rest, s =>
    let s0 := { s with activeServer := some srv.id }
    let c := connectVPN true env s0
    if c.2.1.success then
      (c.1, Ev.setActive srv.id :: c.2.2 ++ [Ev.notifyFailover true], true)
    else
      let s2 := { c.1 with sessionFailedServers := c.1.sessionFailedServers ++ [srv.id] }
      let d := disconnectVPN s2
      let rec2 := attemptServers env rest d.1
      (rec2.1, Ev.setActive srv.id :: c.2.2 ++ d.2.2 ++ rec2.2.1, rec2.2.2)

/-- The `try` body of `handleConnectionFailure`: mark the active server as
failed this session, silently disconnect, compute the remaining candidates,
bail out (clearing the session list) when none remain, rank the candidates,
bail out (keeping the session list) when none responded to ping, otherwise
iterate the ranked candidates.  An injected unexpected error (`env.crash`)
escapes as an exception carrying the state mutated so far. -/
def failoverBody (env : Env) (s : MainState) :
    Except (MainState × List Ev) (MainState × List Ev) :=
  let s1 :=
    match s.activeServer with
    | some id => { s with sessionFailedServers := s.sessionFailedServers ++ [id] }
    | none => s
  let d := disconnectVPN s1
  let s2 := d.1
  if env.crash then
    Except.error (s2, d.2.2)
  else
    let available := s2.servers.filter (fun sv => !(s2.sessionFailedServers.contains sv.id))
    if available.isEmpty then
      Except.ok ({ s2 with sessionFailedServers := [] }, d.2.2)
    else
      let ranked := getRankedServers env.pings available
      if ranked.isEmpty then
        Except.ok (s2, d.2.2)
      else
        let a := attemptServers env ranked s2
        Except.ok (a.1, d.2.2 ++ a.2.1)

/-- `handleConnectionFailure`: entry guard on `autoReconnectEnabled` and the
`isAutoFailoverInProgress` flag; the flag is raised for the episode and the
`finally` block lowers it again on every exit path, normal or exceptional. -/
def handleConnectionFailure (env : Env) (s : MainState) : MainState × List Ev :=
  if !s.autoReconnectEnabled || s.isAutoFailoverInProgress then
    (s, [])
  else
    let sIn := { s with isAutoFailoverInProgress := true }
    match failoverBody env sIn with
    | Except.ok r => ({ r.1 with isAutoFailoverInProgress := false }, r.2)
    | Except.error r => ({ r.1 with isAutoFailoverInProgress := false }, r.2)

/-- The renderer-side connection state (`state` in the renderer script) plus
the DOM fact the connect guard reads: whether the active server item is
rendered with a poor-health ping dot. -/
structure RState where
  isConnected : Bool
  isConnecting : Bool
  isDisconnecting : Bool
  isSwitching : Bool
  activeServerId : Option ServerId
  activeMarkedUnavailable : Bool
deriving DecidableEq

/-- Renderer `connect()`: guard against reentry and a missing selection,
refuse unavailable servers, otherwise mark connecting and call the backend.
The boolean reports whether the backend connect was invoked. -/
def rendererConnect (r : RState) : RState × Bool :=
  if r.isConnected || r.isConnecting || r.activeServerId.isNone then
    (r, false)
  else if r.activeMarkedUnavailable then
    (r, false)
  else
    ({ r with isConnecting := true }, true)

/-- Renderer `disconnect()`: guard when not connected or already
disconnecting; only a non-switching disconnect shows the disconnecting
state.  The boolean reports whether the backend disconnect was invoked. -/
def rendererDisconnect (r : RState) : RState × Bool :=
  if !r.isConnected || r.isDisconnecting then
    (r, false)
  else if r.isSwitching then
    (r, true)
  else
    ({ r with isDisconnecting := true }, true)

/-! Concrete fixtures used by counterexamples and witnesses. -/

def srvA : Server := { id := 1, name := "A" }

def srvB : Server := { id := 2, name := "B" }

def srvC : Server := { id := 3, name := "C" }

/-- A disconnected supervisor with one server, id 1, selected. -/
def baseState : MainState :=
  { isConnected := false, xrayProcess := none, connectionStartTime := none,
    lastConnectedIP := none, sessionFailedServers := [],
    isAutoFailoverInProgress := false, autoReconnectEnabled := true,
    monitoring := false, systemProxyEnabled := false,
    servers := [srvA], activeServer := some 1 }

/-- A connected supervisor holding process handle 7. -/
def connState : MainState :=
  { baseState with
    isConnected := true
    xrayProcess := some 7
    systemProxyEnabled := true
    connectionStartTime := some 1000
    monitoring := true }

/-- An environment in which every step of a connect succeeds. -/
def envOK : Env :=
  { binaryFound := true, accepts := fun _ _ => true,
    verifyIp := fun _ => some "203.0.113.5", pings := fun _ => some 50,
    pid := 7, now := 1000, crash := false }

/-- An environment in which the SOCKS port never accepts a connection. -/
def envTimeout : Env := { envOK with accepts := fun _ _ => false }

/-- An environment in which readiness succeeds but IP verification fails. -/
def envVerifyFail : Env := { envOK with verifyIp := fun _ => none }

/-- An environment in which no server responds to a latency probe. -/
def envNoPing : Env := { envOK with pings := fun _ => none }

/-- The ping oracle of the specified ranking example: A answers 50ms, B is
unreachable, C answers 10ms. -/
def pingsExample : ServerId → Option Nat :=
  fun id => if id = 1 then some 50 else if id = 3 then some 10 else none

/-- A renderer state that is currently Connecting. -/
def rConnecting : RState :=
  { isConnected := false
    isConnecting := true
    isDisconnecting := false
    isSwitching := false
    activeServerId := some 1
    activeMarkedUnavailable := false }

/-- A renderer state that is currently Connected. -/
def rConnected : RState :=
  { rConnecting with isConnected := true, isConnecting := false }

/-- A renderer state that is currently Disconnecting. -/
def rDisconnecting : RState :=
  { rConnected with isDisconnecting := true }

/-! Helper lemmas shared by the claim theorems. -/

lemma waitForProxy_ok0 (timeout : Nat) (accepts : Nat → Bool) (h : accepts 0 = true) :
    waitForProxy timeout accepts = Except.ok 0 := by
  rw [waitForProxy, tryConnect]
  simp [h]

lemma tryConnect_cases (timeout : Nat) (accepts : Nat → Bool) :
    ∀ d elapsed attempt, timeout + 1 - elapsed ≤ d → elapsed = 200 * attempt →
    (∃ k, tryConnect timeout accepts elapsed attempt = Except.ok k ∧
        attempt ≤ k ∧ accepts k = true ∧
        (∀ j, attempt ≤ j → j < k → accepts j = false) ∧ 200 * k ≤ timeout) ∨
    (tryConnect timeout accepts elapsed attempt =
        Except.error ("Proxy connection timed out after " ++ toString timeout ++ "ms") ∧
      ∀ j, attempt ≤ j → 200 * j ≤ timeout → accepts j = false) := by
  intro d
  induction d with
  | zero =>
    intro elapsed attempt hd he
    have hlt : timeout < elapsed := by omega
    rw [tryConnect, dif_pos hlt]
    right
    refine ⟨rfl, ?_⟩
    intro j hj hle
    exfalso
    omega
  | succ d ih =>
    intro elapsed attempt hd he
    rw [tryConnect]
    by_cases h1 : timeout < elapsed
    · rw [dif_pos h1]
      right
      refine ⟨rfl, ?_⟩
      intro j hj hle
      exfalso
      omega
    · rw [dif_neg h1]
      by_cases h2 : accepts attempt = true
      · rw [if_pos h2]
        left
        exact ⟨attempt, rfl, Nat.le_refl _, h2, fun j hj hjk => by omega, by omega⟩
      · rw [if_neg h2]
        have hrec := ih (elapsed + 200) (attempt + 1) (by omega) (by omega)
        rcases hrec with ⟨k, hk, hak, hacc, hfirst, hbound⟩ | ⟨herr, hall⟩
        · left
          refine ⟨k, hk, by omega, hacc, ?_, hbound⟩
          intro j hj hjk
          rcases Nat.eq_or_lt_of_le hj with hj0 | hj1
          · subst hj0
            exact Bool.eq_false_iff.mpr (fun hc => h2 hc)
          · exact hfirst j (by omega) hjk
        · right
          refine ⟨herr, ?_⟩
          intro j hj hle
          rcases Nat.eq_or_lt_of_le hj with hj0 | hj1
          · subst hj0
            exact Bool.eq_false_iff.mpr (fun hc => h2 hc)
          · exact hall j (by omega) hle

lemma waitForProxy_cases (timeout : Nat) (accepts : Nat → Bool) :
    (∃ k, waitForProxy timeout accepts = Except.ok k ∧ accepts k = true ∧
        (∀ j, j < k → accepts j = false) ∧ 200 * k ≤ timeout) ∨
    (waitForProxy timeout accepts =
        Except.error ("Proxy connection timed out after " ++ toString timeout ++ "ms") ∧
      ∀ j, 200 * j ≤ timeout → accepts j = false) := by
  have h := tryConnect_cases timeout accepts (timeout + 1) 0 0 (by omega) (by omega)
  rw [waitForProxy]
  rcases h with ⟨k, hk, _, hacc, hfirst, hbound⟩ | ⟨herr, hall⟩
  · exact Or.inl ⟨k, hk, hacc, fun j hj => hfirst j (Nat.zero_le _) hj, hbound⟩
  · exact Or.inr ⟨herr, fun j hj => hall j (Nat.zero_le _) hj⟩

lemma waitForProxy_allFail (timeout : Nat) (accepts : Nat → Bool)
    (h : ∀ j, accepts j = false) :
    waitForProxy timeout accepts =
      Except.error ("Proxy connection timed out after " ++ toString timeout ++ "ms") := by
  rcases waitForProxy_cases timeout accepts with ⟨k, _, hacc, _, _⟩ | ⟨herr, _⟩
  · rw [h k] at hacc
    cases hacc
  · exact herr

lemma disconnectVPN_not_connected (s : MainState) (h : s.isConnected = false) :
    disconnectVPN s = (s, { success := true, message := "Not connected" }, []) := by
  simp [disconnectVPN, h]

lemma disconnectVPN_isConnected (s : MainState) :
    (disconnectVPN s).1.isConnected = false := by
  cases h : s.isConnected <;> cases hx : s.xrayProcess <;> simp [disconnectVPN, h, hx]

lemma disconnectVPN_servers (s : MainState) :
    (disconnectVPN s).1.servers = s.servers := by
  cases h : s.isConnected <;> cases hx : s.xrayProcess <;> simp [disconnectVPN, h, hx]

lemma disconnectVPN_session (s : MainState) :
    (disconnectVPN s).1.sessionFailedServers = s.sessionFailedServers := by
  cases h : s.isConnected <;> cases hx : s.xrayProcess <;> simp [disconnectVPN, h, hx]

lemma disconnectVPN_activeServer (s : MainState) :
    (disconnectVPN s).1.activeServer = s.activeServer := by
  cases h : s.isConnected <;> cases hx : s.xrayProcess <;> simp [disconnectVPN, h, hx]

lemma disconnectVPN_success (s : MainState) :
    (disconnectVPN s).2.1.success = true := by
  cases h : s.isConnected <;> cases hx : s.xrayProcess <;> simp [disconnectVPN, h, hx]

lemma disconnectVPN_no_spawn (s : MainState) (p : Nat) :
    Ev.spawnProcess p ∉ (disconnectVPN s).2.2 := by
  cases h : s.isConnected <;> cases hx : s.xrayProcess <;> simp [disconnectVPN, h, hx]

lemma disconnectVPN_no_setActive (s : MainState) (id : ServerId) :
    Ev.setActive id ∉ (disconnectVPN s).2.2 := by
  cases h : s.isConnected <;> cases hx : s.xrayProcess <;> simp [disconnectVPN, h, hx]

lemma mem_getRankedServers (pings : ServerId → Option Nat)
    (servers : List Server) (sv : Server) :
    sv ∈ getRankedServers pings servers ↔
      sv ∈ servers ∧ (pings sv.id).isSome = true := by
  rw [getRankedServers, rankedWithPings]
  constructor
  · intro h
    obtain ⟨⟨sv2, p⟩, hmem, heq⟩ := List.mem_map.mp h
    cases heq
    have hmem2 := (List.perm_insertionSort pingLE _).mem_iff.mp hmem
    obtain ⟨sv3, hsv3, hp⟩ := List.mem_filterMap.mp hmem2
    obtain ⟨v, hv, hpair⟩ := Option.map_eq_some'.mp hp
    cases hpair
    exact ⟨hsv3, by simp [hv]⟩
  · rintro ⟨hmem, hsome⟩
    obtain ⟨v, hv⟩ := Option.isSome_iff_exists.mp hsome
    refine List.mem_map.mpr ⟨(sv, v), ?_, rfl⟩
    refine (List.perm_insertionSort pingLE _).mem_iff.mpr ?_
    exact List.mem_filterMap.mpr ⟨sv, hmem, by simp [hv]⟩

lemma rankedWithPings_sorted (pings : ServerId → Option Nat) (servers : List Server) :
    List.Sorted pingLE (rankedWithPings pings servers) :=
  List.sorted_insertionSort pingLE _

lemma connectVPN_wait_error (b : Bool) (env : Env) (s : MainState) (srv : Server)
    (msg : String) (hc : s.isConnected = false) (ha : getActiveServer s = some srv)
    (hb : env.binaryFound = true)
    (hw : waitForProxy 10000 (env.accepts srv.id) = Except.error msg) :
    connectVPN b env s =
      ({ s with monitoring := false, xrayProcess := some env.pid },
        { success := false,
          message := "Failed to connect: Failed to establish proxy connection: " ++ msg },
        [Ev.stopMonitor, Ev.spawnProcess env.pid]) := by
  rw [connectVPN, if_neg (by simp [hc]), ha]
  simp only [hb, if_true]
  rw [hw]
  dsimp only
  rw [disconnectVPN_not_connected _ (by simp [hc])]

lemma connectVPN_verify_fail (b : Bool) (env : Env) (s : MainState) (srv : Server)
    (k : Nat) (hc : s.isConnected = false) (ha : getActiveServer s = some srv)
    (hb : env.binaryFound = true)
    (hw : waitForProxy 10000 (env.accepts srv.id) = Except.ok k)
    (hv : env.verifyIp srv.id = none) :
    connectVPN b env s =
      ({ s with
          monitoring := false
          xrayProcess := some env.pid
          systemProxyEnabled := true },
        { success := false,
          message := "Failed to connect: Could not verify connection. IP detection failed after starting proxy." },
        [Ev.stopMonitor, Ev.spawnProcess env.pid, Ev.enableProxy]) := by
  rw [connectVPN, if_neg (by simp [hc]), ha]
  simp only [hb, if_true]
  rw [hw]
  dsimp only
  rw [hv]
  dsimp only
  rw [disconnectVPN_not_connected _ (by simp [hc])]

lemma connectVPN_ok (b : Bool) (env : Env) (s : MainState) (srv : Server)
    (k : Nat) (ip : String) (hc : s.isConnected = false)
    (ha : getActiveServer s = some srv) (hb : env.binaryFound = true)
    (hw : waitForProxy 10000 (env.accepts srv.id) = Except.ok k)
    (hv : env.verifyIp srv.id = some ip) (har : s.autoReconnectEnabled = true) :
    connectVPN b env s =
      ({ s with
          monitoring := true
          xrayProcess := some env.pid
          systemProxyEnabled := true
          isConnected := true
          connectionStartTime := some env.now
          lastConnectedIP := some ip
          sessionFailedServers := if b then s.sessionFailedServers else [] },
        { success := true, message := "Connected successfully" },
        [Ev.stopMonitor, Ev.spawnProcess env.pid, Ev.enableProxy, Ev.startMonitor]) := by
  rw [connectVPN, if_neg (by simp [hc]), ha]
  simp only [hb, if_true]
  rw [hw]
  dsimp only
  rw [hv]
  dsimp only
  cases b
  · simp [har]
  · simp [har]

lemma connectVPN_manual_session (env : Env) (s : MainState) :
    (connectVPN false env s).1.sessionFailedServers = [] ∨
    ((connectVPN false env s).2.1.success = false ∧
      (connectVPN false env s).1.sessionFailedServers = s.sessionFailedServers) := by
  rw [connectVPN]
  repeat' split
  all_goals simp_all [disconnectVPN_session, apply_ite]

lemma connectVPN_emergency_session (env : Env) (s : MainState) :
    (connectVPN true env s).1.sessionFailedServers = s.sessionFailedServers := by
  rw [connectVPN]
  repeat' split
  all_goals simp_all [disconnectVPN_session, apply_ite]


/-! Claim theorems. -/

/-- Claim C1 (code bug): when a connect fails after the tunnel process was
spawned — readiness timeout or verification failure — the cleanup call
`disconnectVPN(true)` returns immediately because `isConnected` is still
false, so the spawned process is never killed and the applied system proxy
is never disabled; only the failure result and the Disconnected state match
the claim. -/
theorem connect_failure_rollback_bug :
    ((connectVPN false envTimeout baseState).2.1.success = false ∧
      (connectVPN false envTimeout baseState).1.isConnected = false ∧
      (connectVPN false envTimeout baseState).1.xrayProcess = some 7 ∧
      Ev.killProcess ∉ (connectVPN false envTimeout baseState).2.2) ∧
    ((connectVPN false envVerifyFail baseState).2.1.success = false ∧
      (connectVPN false envVerifyFail baseState).1.isConnected = false ∧
      (connectVPN false envVerifyFail baseState).1.xrayProcess = some 7 ∧
      (connectVPN false envVerifyFail baseState).1.systemProxyEnabled = true ∧
      Ev.killProcess ∉ (connectVPN false envVerifyFail baseState).2.2 ∧
      Ev.disableProxy ∉ (connectVPN false envVerifyFail baseState).2.2) := by
  have h1 := connectVPN_wait_error false envTimeout baseState srvA _ rfl rfl rfl
    (waitForProxy_allFail 10000 _ (fun j => rfl))
  have h2 := connectVPN_verify_fail false envVerifyFail baseState srvA 0 rfl rfl rfl
    (waitForProxy_ok0 10000 _ rfl) rfl
  rw [h1, h2]
  exact ⟨⟨rfl, rfl, rfl, by decide⟩, rfl, rfl, rfl, rfl, by decide, by decide⟩

/-- Claim C2: `disconnectVPN` is idempotent — from every starting state both
calls end Disconnected and report success, and the second call changes
nothing and performs no side effects. -/
theorem disconnectVPN_idempotent (s : MainState) :
    (disconnectVPN s).1.isConnected = false ∧
    (disconnectVPN (disconnectVPN s).1).1.isConnected = false ∧
    (disconnectVPN s).2.1.success = true ∧
    (disconnectVPN (disconnectVPN s).1).2.1.success = true ∧
    (disconnectVPN (disconnectVPN s).1).1 = (disconnectVPN s).1 ∧
    (disconnectVPN (disconnectVPN s).1).2.2 = [] := by
  have h1 := disconnectVPN_isConnected s
  refine ⟨h1, disconnectVPN_isConnected _, disconnectVPN_success s,
    disconnectVPN_success _, ?_, ?_⟩
  · rw [disconnectVPN_not_connected _ h1]
  · rw [disconnectVPN_not_connected _ h1]

/-- Claim C3: candidates are probed independently, ranked ascending by
latency with unreachable candidates excluded entirely (a candidate is ranked
iff it is a candidate and reachable); on the specified example the ranking
of A(50ms), B(unreachable), C(10ms) is [C, A]. -/
theorem getRankedServers_spec :
    getRankedServers pingsExample [srvA, srvB, srvC] = [srvC, srvA] ∧
    (∀ pings servers sv, sv ∈ getRankedServers pings servers ↔
      sv ∈ servers ∧ (pings sv.id).isSome = true) ∧
    (∀ pings servers, List.Sorted pingLE (rankedWithPings pings servers)) :=
  ⟨by decide, mem_getRankedServers, rankedWithPings_sorted⟩

/-- Claim C6: connect while already Connecting or Connected is a no-op —
the renderer guard returns without touching state or calling the backend,
and the main-process guard returns the state untouched with an
"Already connected" failure and an empty effect trace; disconnect while
Disconnecting is likewise a no-op. -/
theorem reentrancy_guards (r : RState) (b : Bool) (env : Env) (s : MainState) :
    (r.isConnecting = true → rendererConnect r = (r, false)) ∧
    (r.isConnected = true → rendererConnect r = (r, false)) ∧
    (s.isConnected = true →
      connectVPN b env s =
        (s, { success := false, message := "Already connected" }, [])) ∧
    (r.isDisconnecting = true → rendererDisconnect r = (r, false)) := by
  refine ⟨?_, ?_, ?_, ?_⟩
  · intro h
    simp [rendererConnect, h]
  · intro h
    simp [rendererConnect, h]
  · intro h
    simp [connectVPN, h]
  · intro h
    simp [rendererDisconnect, h]

/-- Witness for claim C6 at concrete states: a connecting renderer state, a
connected renderer state, a connected supervisor, a disconnecting renderer
state. -/
theorem reentrancy_guards_witness :
    rendererConnect rConnecting = (rConnecting, false) ∧
    rendererConnect rConnected = (rConnected, false) ∧
    connectVPN false envOK connState =
      (connState, { success := false, message := "Already connected" }, []) ∧
    rendererDisconnect rDisconnecting = (rDisconnecting, false) :=
  ⟨(reentrancy_guards rConnecting false envOK connState).1 rfl,
   (reentrancy_guards rConnected false envOK connState).2.1 rfl,
   (reentrancy_guards rConnected false envOK connState).2.2.1 rfl,
   (reentrancy_guards rDisconnecting false envOK connState).2.2.2 rfl⟩

/-- Claim C7 counterexample: on a connected supervisor with a live process
handle, the first side effect of `disconnectVPN` is killing the process, not
stopping the NetworkHealthMonitor — the monitor stop is the last effect, so
the claimed stop-monitor-first ordering is false. -/
theorem disconnect_order_counterexample :
    (disconnectVPN connState).2.2 =
      [Ev.killProcess, Ev.disableProxy, Ev.clearRecord, Ev.stopMonitor] ∧
    (disconnectVPN connState).2.2.head? ≠ some Ev.stopMonitor := by
  constructor
  · decide
  · decide

/-- Claim C7 amended: `disconnectVPN` on a connected supervisor with a live
process handle kills the tunnel process first, then disables the system
proxy, then clears the active-connection record and transitions to
Disconnected, and stops the NetworkHealthMonitor last — after the teardown,
not before it. -/
theorem disconnect_order (s : MainState) (p : Nat)
    (h1 : s.isConnected = true) (h2 : s.xrayProcess = some p) :
    (disconnectVPN s).2.2 =
      [Ev.killProcess, Ev.disableProxy, Ev.clearRecord, Ev.stopMonitor] ∧
    (disconnectVPN s).1.isConnected = false ∧
    (disconnectVPN s).1.xrayProcess = none ∧
    (disconnectVPN s).1.systemProxyEnabled = false ∧
    (disconnectVPN s).1.connectionStartTime = none ∧
    (disconnectVPN s).1.monitoring = false := by
  simp [disconnectVPN, h1, h2]

/-- Witness for the amended claim C7 at the concrete connected state. -/
theorem disconnect_order_witness :
    (disconnectVPN connState).2.2 =
      [Ev.killProcess, Ev.disableProxy, Ev.clearRecord, Ev.stopMonitor] :=
  (disconnect_order connState 7 rfl rfl).1

/-- Claim C8: when the xray process exits while the supervisor is Connected
the close handler triggers a silent disconnect, reaching Disconnected with
the process handle dropped and the proxy disabled; when not Connected it
does nothing. -/
theorem processClose_self_healing (s : MainState) :
    (s.isConnected = true →
      (onProcessClose s).1.isConnected = false ∧
      (onProcessClose s).1.xrayProcess = none ∧
      (onProcessClose s).1.systemProxyEnabled = false ∧
      (onProcessClose s).2 ≠ []) ∧
    (s.isConnected = false → onProcessClose s = (s, [])) := by
  constructor
  · intro h
    cases hx : s.xrayProcess <;>
      simp [onProcessClose, disconnectVPN, h, hx]
  · intro h
    simp [onProcessClose, h]

/-- Claim C9: `waitForProxy` is a bounded active-retry loop — for any
attempt oracle it either resolves at the first accepted attempt, whose
200ms-spaced start time is within the timeout budget, or rejects with the
timeout error after every attempt inside the budget has failed; with the
default 10s budget it rejects as soon as the 51 attempts that fit in the
budget all fail. -/
theorem waitForProxy_bounded_retry (timeout : Nat) (accepts : Nat → Bool) :
    ((∃ k, waitForProxy timeout accepts = Except.ok k ∧ accepts k = true ∧
        (∀ j, j < k → accepts j = false) ∧ 200 * k ≤ timeout) ∨
      (waitForProxy timeout accepts =
          Except.error ("Proxy connection timed out after " ++ toString timeout ++ "ms") ∧
        ∀ j, 200 * j ≤ timeout → accepts j = false)) ∧
    (∀ acc2 : Nat → Bool, (∀ j, j ≤ 50 → acc2 j = false) →
      waitForProxy 10000 acc2 =
        Except.error ("Proxy connection timed out after " ++ toString 10000 ++ "ms")) := by
  constructor
  · exact waitForProxy_cases timeout accepts
  · intro acc2 hfail
    rcases waitForProxy_cases 10000 acc2 with ⟨k, _, hacc, _, hbound⟩ | ⟨herr, _⟩
    · have hk : acc2 k = false := hfail k (by omega)
      rw [hk] at hacc
      cases hacc
    · exact herr

/-- Claim C10: every invocation of `handleConnectionFailure` that passes the
entry guard leaves `isAutoFailoverInProgress` lowered again when the episode
finishes, whatever the outcome of the episode body (success, exhaustion, or
an injected unexpected error). -/
theorem failover_flag_always_reset (env : Env) (s : MainState)
    (h1 : s.autoReconnectEnabled = true) (h2 : s.isAutoFailoverInProgress = false) :
    (handleConnectionFailure env s).1.isAutoFailoverInProgress = false := by
  rw [handleConnectionFailure, if_neg (by simp [h1, h2])]
  show (match failoverBody env { s with isAutoFailoverInProgress := true } with
    | Except.ok r => ({ r.1 with isAutoFailoverInProgress := false }, r.2)
    | Except.error r =>
      ({ r.1 with isAutoFailoverInProgress := false }, r.2)).1.isAutoFailoverInProgress = false
  cases failoverBody env { s with isAutoFailoverInProgress := true } <;> rfl

/-- Witness for claim C10: the flag is lowered after a concrete episode that
exhausts candidates, and after one hitting an injected unexpected error. -/
theorem failover_flag_always_reset_witness :
    (handleConnectionFailure envNoPing connState).1.isAutoFailoverInProgress = false ∧
    (handleConnectionFailure { envNoPing with crash := true }
        connState).1.isAutoFailoverInProgress = false :=
  ⟨failover_flag_always_reset envNoPing connState rfl rfl,
   failover_flag_always_reset { envNoPing with crash := true } connState rfl rfl⟩


/-- Claim C4: a successful manual connect (isEmergencyReconnect false)
leaves the session failed-server list empty, and a failover-driven connect
(isEmergencyReconnect true) leaves it unchanged on every path. -/
theorem manual_connect_resets_session (env : Env) (s : MainState) :
    ((connectVPN false env s).2.1.success = true →
      (connectVPN false env s).1.sessionFailedServers = []) ∧
    (connectVPN true env s).1.sessionFailedServers = s.sessionFailedServers := by
  constructor
  · intro h
    rcases connectVPN_manual_session env s with hok | ⟨hfail, _⟩
    · exact hok
    · rw [h] at hfail
      cases hfail
  · exact connectVPN_emergency_session env s

/-- Witness for claim C4: a concrete successful manual connect starting with
a non-empty session failed list ends with it reset to empty. -/
theorem manual_connect_resets_session_witness :
    (connectVPN false envOK
        { baseState with sessionFailedServers := [2] }).1.sessionFailedServers = [] :=
  (manual_connect_resets_session envOK
    { baseState with sessionFailedServers := [2] }).1
    (by
      rw [connectVPN_ok false envOK { baseState with sessionFailedServers := [2] }
        srvA 0 "203.0.113.5" rfl rfl rfl (waitForProxy_ok0 10000 _ rfl) rfl rfl])

/-- Claim C5 counterexample: with two servers where the failover candidate B
answers no ping, the episode stops but retains the failed active server in
the session list ([1]), while the empty-candidate episode (single server)
clears the list — the two exhaustion outcomes differ, so stopping with "the
same exhaustion outcome as the empty-candidate case" is false. -/
theorem failover_noping_cex :
    (handleConnectionFailure envNoPing
        { connState with servers := [srvA, srvB] }).1.sessionFailedServers = [1] ∧
    (handleConnectionFailure envNoPing connState).1.sessionFailedServers = [] ∧
    ((1 : ServerId) :: []) ≠ ([] : List ServerId) :=
  ⟨by decide, by decide, by decide⟩

/-- Claim C5 amended: an episode whose candidate set (all servers minus the
updated FailoverSession) is empty clears the FailoverSession and stops with
no connection attempt; an episode whose candidates are non-empty but none
answers the latency probe also stops with no connection attempt, but keeps
the FailoverSession (now containing the failed active server) instead of
clearing it. -/
theorem failover_exhaustion_stops (env : Env) (s : MainState) (aid : ServerId)
    (h1 : s.autoReconnectEnabled = true) (h2 : s.isAutoFailoverInProgress = false)
    (hA : s.activeServer = some aid) (hc : env.crash = false) :
    (s.servers.filter
        (fun sv => !((s.sessionFailedServers ++ [aid]).contains sv.id)) = [] →
      (handleConnectionFailure env s).1.sessionFailedServers = [] ∧
      ∀ p, Ev.spawnProcess p ∉ (handleConnectionFailure env s).2) ∧
    (s.servers.filter
        (fun sv => !((s.sessionFailedServers ++ [aid]).contains sv.id)) ≠ [] →
      getRankedServers env.pings
        (s.servers.filter
          (fun sv => !((s.sessionFailedServers ++ [aid]).contains sv.id))) = [] →
      (handleConnectionFailure env s).1.sessionFailedServers =
        s.sessionFailedServers ++ [aid] ∧
      ∀ p, Ev.spawnProcess p ∉ (handleConnectionFailure env s).2) := by
  constructor
  · intro hEmpty
    constructor
    · rw [handleConnectionFailure, if_neg (by simp [h1, h2])]
      simp only [failoverBody, hA]
      rw [if_neg (by simp [hc])]
      simp only [disconnectVPN_servers, disconnectVPN_session]
      rw [hEmpty]
      simp
    · intro p
      rw [handleConnectionFailure, if_neg (by simp [h1, h2])]
      simp only [failoverBody, hA]
      rw [if_neg (by simp [hc])]
      simp only [disconnectVPN_servers, disconnectVPN_session]
      rw [hEmpty]
      simp only [List.isEmpty_nil, if_true]
      exact disconnectVPN_no_spawn _ p
  · intro hNE hRank
    constructor
    · rw [handleConnectionFailure, if_neg (by simp [h1, h2])]
      simp only [failoverBody, hA]
      rw [if_neg (by simp [hc])]
      simp only [disconnectVPN_servers, disconnectVPN_session]
      rw [if_neg (by simp only [List.isEmpty_iff]; exact hNE)]
      rw [hRank]
      simp [disconnectVPN_session]
    · intro p
      rw [handleConnectionFailure, if_neg (by simp [h1, h2])]
      simp only [failoverBody, hA]
      rw [if_neg (by simp [hc])]
      simp only [disconnectVPN_servers, disconnectVPN_session]
      rw [if_neg (by simp only [List.isEmpty_iff]; exact hNE)]
      rw [hRank]
      simp only [List.isEmpty_nil, if_true]
      exact disconnectVPN_no_spawn _ p

/-- Witness for the amended claim C5 at concrete states: the single-server
episode clears the session list, the two-server no-ping episode keeps the
failed server recorded. -/
theorem failover_exhaustion_stops_witness :
    (handleConnectionFailure envNoPing connState).1.sessionFailedServers = [] ∧
    (handleConnectionFailure envNoPing
        { connState with servers := [srvA, srvB] }).1.sessionFailedServers = [1] :=
  ⟨((failover_exhaustion_stops envNoPing connState 1 rfl rfl rfl rfl).1 (by decide)).1,
   ((failover_exhaustion_stops envNoPing { connState with servers := [srvA, srvB] } 1
      rfl rfl rfl rfl).2 (by decide) (by decide)).1⟩


end StealthLynk
